import Mathlib

/-!
# researchathon: chat widget (`script.js`) and remote analysis client (`api.js`)

A shallow embedding of the two JavaScript classes `ChatUI` and `API`, followed by the
properties established about them.

Conventions of the embedding.

* JavaScript strings are Lean `String`s; a template literal is the concatenation of its
  constant pieces (whitespace and line breaks kept as in the source) and its interpolated values.
* The DOM is modelled as far as the program touches it: the children of `#chatMessages` are a
  list of elements, every element created by `document.createElement` has a fresh identity.
* Asynchronous code is split at its `await`: the part that runs synchronously, and the
  continuation that runs with the outcome of the awaited promise. Timers are recorded in the
  state, in scheduling order.
* Numbers in `formatFileSize` are exact: the quotient of a byte count by a power of 1024 is a
  dyadic rational, and `Math.floor(Math.log(bytes) / Math.log(k))` is the floor of the real
  logarithm, which is what the floating-point computation gives for sizes below `1024 ^ 4`.
-/

namespace ChatUI

/-! ## `formatFileSize` -/

/-- Worker of `floorLog`: the number of times `n` can be divided by `k` before it drops
below `k`. -/
def floorLogAux (k : Nat) : Nat → Nat → Nat
  | 0, _ => 0
  | fuel + 1, n => if n < k then 0 else floorLogAux k fuel (n / k) + 1

/-- `Math.floor(Math.log(bytes) / Math.log(k))`, for `k ≥ 2`, over exact reals. The code
floors the quotient of two rounded doubles; for `k = 1024` that is this value as long as
`0 < bytes < 1024 ^ 4`, the range of the statements on `formatFileSize` below. Just under
`1024 ^ 5` (from `2 ^ 50 - 3` on) the rounded quotient already reaches 5, so there the code
takes the next index and this definition does not describe it. -/
def floorLog (k bytes : Nat) : Nat := floorLogAux k bytes bytes

/-- A fraction below 100 as two decimal digits. -/
def twoDigits (f : Nat) : String :=
  if f < 10 then "0" ++ toString f else toString f

/-- `(num / den).toFixed(2)`: with `n` the integer for which `n / 100 - num / den` is closest
to zero (the larger one when there are two), the digits of `n` with a decimal point before
the last two. -/
def toFixed2 (num den : Nat) : String :=
  let n := (200 * num + den) / (2 * den)
  toString (n / 100) ++ "." ++ twoDigits (n % 100)

/-- A decimal number `mantissa / 10 ^ scale`. -/
structure Decimal where
  mantissa : Nat
  scale : Nat
deriving DecidableEq, Repr

/-- The value of a decimal digit character. -/
def digitValue (c : Char) : Nat := c.toNat - 48

/-- The number written by a list of decimal digits. -/
def parseDigits (cs : List Char) : Nat :=
  cs.foldl (fun acc c => 10 * acc + digitValue c) 0

/-- `parseFloat(s)` on unsigned decimal literals: the longest leading `digits[.digits]`;
`none` stands for `NaN`. -/
def parseFloat (s : String) : Option Decimal :=
  let ip := s.data.takeWhile Char.isDigit
  match s.data.dropWhile Char.isDigit with
  | '.' :: fs =>
    let fd := fs.takeWhile Char.isDigit
    if ip.isEmpty && fd.isEmpty then none else some ⟨parseDigits (ip ++ fd), fd.length⟩
  | _ => if ip.isEmpty then none else some ⟨parseDigits ip, 0⟩

/-- Drops the trailing zeros of a decimal fraction. -/
def stripZeros : Nat → Nat → Nat × Nat
  | m, 0 => (m, 0)
  | m, s + 1 => if m % 10 = 0 then stripZeros (m / 10) s else (m, s + 1)

/-- Pads a digit string with zeros on the left, up to `width` characters. -/
def padLeft (width : Nat) (s : String) : String :=
  String.mk (List.replicate (width - s.length) '0') ++ s

/-- The string conversion of a number (as in `number + ' '`): the shortest decimal that
denotes it, so no trailing zeros and no trailing decimal point. -/
def numberToString : Option Decimal → String
  | none => "NaN"
  | some d =>
    let ms := stripZeros d.mantissa d.scale
    if ms.2 = 0 then toString ms.1
    else toString (ms.1 / 10 ^ ms.2) ++ "." ++ padLeft ms.2 (toString (ms.1 % 10 ^ ms.2))

/-- The array `sizes` of `formatFileSize`. -/
def sizes : List String := ["Bytes", "KB", "MB", "GB"]

/-- The string conversion of `sizes[i]`: an index past the end reads `undefined`. -/
def sizesAt (i : Nat) : String := (sizes.get? i).getD "undefined"

/-- `ChatUI.formatFileSize(bytes)` for a non-negative integer `bytes`. -/
def formatFileSize (bytes : Nat) : String :=
  if bytes = 0 then "0 Bytes"
  else
    let k := 1024
    let i := floorLog k bytes
    numberToString (parseFloat (toFixed2 bytes (k ^ i))) ++ " " ++ sizesAt i

/-- The size string as the specification words it: the value `bytes / 1024 ^ i` shown with
two decimal places, then the unit. -/
def formatSizeSpec (bytes : Nat) : String :=
  if bytes = 0 then "0 Bytes"
  else toFixed2 bytes (1024 ^ floorLog 1024 bytes) ++ " " ++ sizesAt (floorLog 1024 bytes)

/-- The hundredths `n` written as the number `n / 100` with at most two decimals: no decimal
part when it is whole, one decimal when the second is zero, two otherwise. -/
def shownValue (n : Nat) : String :=
  if n % 100 = 0 then toString (n / 100)
  else if n % 10 = 0 then toString (n / 100) ++ "." ++ toString (n % 100 / 10)
  else toString (n / 100) ++ "." ++ twoDigits (n % 100)

end ChatUI


/-! ## JavaScript strings and values -/

/-- Worker of `includes`: whether `needle` starts at some position of the list. -/
def includesAt (needle : List Char) : List Char → Bool
  | [] => needle.isPrefixOf []
  | c :: cs => needle.isPrefixOf (c :: cs) || includesAt needle cs

/-- `s.includes(needle)`. -/
def includes (s needle : String) : Bool := includesAt needle.data s.data

/-- `s.match(lit + '.*')` as a condition, for a pattern `lit` of plain characters: the regular
expression is not anchored and `.*` also matches the empty string, so there is a match exactly
when `lit` occurs somewhere in `s`. -/
def matchesThenAny (s lit : String) : Bool := includes s lit

/-- The characters `String.prototype.trim` strips: white space and line terminators. -/
def isJsWhiteSpace (c : Char) : Bool :=
  c = '\t' || c = '\n' || c = '\x0b' || c = '\x0c' || c = '\r' || c = ' ' ||
  c = '\u00a0' || c = '\u1680' || (0x2000 ≤ c.toNat && c.toNat ≤ 0x200a) ||
  c = '\u2028' || c = '\u2029' || c = '\u202f' || c = '\u205f' || c = '\u3000' ||
  c = '\ufeff'

/-- `s.trim()`. -/
def jsTrim (s : String) : String :=
  String.mk ((s.data.dropWhile isJsWhiteSpace).reverse.dropWhile isJsWhiteSpace).reverse

/-- A value read from a property, as far as the program observes it: it is compared with
string literals by `===` and converted to a string. `other shown` is a value that is not a
string and not `undefined` (a number, a boolean, `null`, an array, an object), with `shown`
its string conversion. `unconvertible` is an object or array whose conversion to a string
throws a `TypeError`, such as the parsed `{"toString": 1}`. -/
inductive JsValue where
  | undefined
  | string (s : String)
  | other (shown : String)
  | unconvertible
deriving DecidableEq, Repr

/-- The string conversion of a value, as in a template literal; `none` when the conversion
throws. -/
def JsValue.toStr : JsValue → Option String
  | .undefined => some "undefined"
  | .string s => some s
  | .other shown => some shown
  | .unconvertible => none

/-- The message of the `TypeError` raised by a string conversion that throws (the wording of
V8). -/
def conversionMessage : String := "Cannot convert object to primitive value"

/-- An `Error` object: only its `message` is read. -/
structure JsError where
  message : String
deriving DecidableEq, Repr

/-- The error raised by `throw new Error(v)`: the new error, whose message is empty when `v` is
`undefined` and the string conversion of `v` otherwise, or the `TypeError` of that conversion
when it throws. -/
def JsError.ofValue : JsValue → JsError
  | .undefined => ⟨""⟩
  | v =>
    match v.toStr with
    | some message => ⟨message⟩
    | none => ⟨conversionMessage⟩

/-! ## `API` (`api.js`) -/

/-- The value `result`: what `response.json()` resolves to, or what `API.analyzeImage`
returns. It is `null`, or a value whose properties can be read; of those, the three that the
program reads are kept (a missing property reads `undefined`). -/
inductive ResponseBody where
  | null
  | object (status detail prediction : JsValue)
deriving DecidableEq, Repr

/-- The outcome of `response.json()`: it rejects with a `SyntaxError` carrying a message, or
resolves to the parsed value. -/
inductive JsonOutcome where
  | syntaxError (message : String)
  | value (result : ResponseBody)
deriving DecidableEq, Repr

/-- The outcome of the `fetch` call: it rejects (transport failure) with an error carrying a
message, or resolves to a response with an HTTP status and a body. -/
inductive FetchOutcome where
  | rejected (message : String)
  | response (status : Nat) (json : JsonOutcome)
deriving DecidableEq, Repr

/-- `response.ok`: the status is in the range 200 to 299. -/
def responseOk (status : Nat) : Bool := 200 ≤ status && status ≤ 299

/-- A `File`: its name, declared media type and size in bytes. -/
structure File where
  name : String
  type : String
  size : Nat
deriving DecidableEq, Repr

/-- How the body of an `async` function completes: with a returned value or a thrown error. -/
inductive Completion where
  | returned (result : ResponseBody)
  | thrown (error : JsError)
deriving DecidableEq, Repr

/-- A settled promise of an `async` function: the delay in milliseconds of the `setTimeout` it
awaited before it settled (0 when it made no such call), and how its body completed. -/
structure Settled where
  waited : Nat
  outcome : Completion
deriving DecidableEq, Repr

namespace API

/-- The message of the `TypeError` raised by reading `result.status` when `result` is `null`
(the wording of V8). -/
def nullStatusMessage : String := "Cannot read properties of null (reading 'status')"

/-- The `try` block of `API.analyzeImage`, run on the outcome of the `fetch` call: the value
it returns, or the error it throws. -/
def analyzeImageTry : FetchOutcome → Completion
  | .rejected message => .thrown ⟨message⟩
  | .response status json =>
    if !responseOk status then .thrown ⟨"HTTP error! status: " ++ toString status⟩
    else
      match json with
      | .syntaxError message => .thrown ⟨message⟩
      | .value .null => .thrown ⟨nullStatusMessage⟩
      | .value (.object status detail prediction) =>
        if status = .string "error" then .thrown (JsError.ofValue detail)
        else .returned (.object status detail prediction)

/-- The simulated response of the `catch` block, for a value `random` of `Math.random()`. -/
def simulated (random : ℚ) : ResponseBody :=
  .object (.string "success") .undefined (.string (if random > 1 / 2 then "REAL" else "FAKE"))

/-- `API.analyzeImage(file)`, given the outcome of its `fetch` call and the value that
`Math.random()` returns when it is called. -/
def analyzeImage (_file : File) (net : FetchOutcome) (random : ℚ) : Settled :=
  match analyzeImageTry net with
  | .returned result => ⟨0, .returned result⟩
  | .thrown error =>
    if includes error.message "Failed to fetch" || includes error.message "NetworkError" then
      ⟨2000, .returned (simulated random)⟩
    else ⟨0, .thrown error⟩

end API

/-! ## `ChatUI` (`script.js`) -/

/-- An element of the page: `id` is its identity as a node (two elements with equal markup are
still two nodes), `className` and `innerHTML` are the properties the program assigns. -/
structure Element where
  id : Nat
  className : String
  innerHTML : String
deriving DecidableEq, Repr

/-- The callbacks the program passes to `setTimeout`: the scroll of `scrollToBottom`, the
canned reply of `handleSendMessage`, and the `resolve` of the promise that `API.analyzeImage`
awaits before it returns the simulated result. -/
inductive Callback where
  | scroll
  | reply (message : String)
  | resolve
deriving DecidableEq, Repr

/-- A pending `setTimeout`: delay in milliseconds and callback. -/
structure Timer where
  delay : Nat
  callback : Callback
deriving DecidableEq, Repr

/-- The state a `ChatUI` works on. `chatMessages` are the children of `#chatMessages` in
document order, `chatInput` is the text content of `#chatInput`, `fileInput` the value of
`#fileInput`. `nextId` is the identity of the next node `document.createElement` makes.
`timers` are the calls made to `setTimeout`, `reads` the calls to `readAsDataURL` with the
element their `onload` fills, `requests` the calls to `API.analyzeImage` (one `fetch` each)
with the placeholder element their continuation removes; all in call order. -/
structure ChatUI where
  chatMessages : List Element
  chatInput : String
  fileInput : String
  nextId : Nat
  timers : List Timer
  reads : List (File × Nat)
  requests : List (File × Nat)
deriving DecidableEq, Repr

namespace ChatUI

/-- The text a character of a text node is serialized to by `innerHTML`. -/
def escapeChar (c : Char) : List Char :=
  if c = '&' then "&amp;".data
  else if c = '<' then "&lt;".data
  else if c = '>' then "&gt;".data
  else if c = '\u00a0' then "&nbsp;".data
  else [c]

/-- A character that the serialization rewrites. -/
def isSpecial (c : Char) : Bool := c = '&' || c = '<' || c = '>' || c = '\u00a0'

/-- Serialization of the characters of a text node. -/
def escapeChars : List Char → List Char
  | [] => []
  | c :: cs => escapeChar c ++ escapeChars cs

/-- `ChatUI.escapeHtml(text)`: `text` becomes the text content of a fresh `div`, whose
`innerHTML` is read back. -/
def escapeHtml (text : String) : String := String.mk (escapeChars text.data)

/-- The text shown for markup that holds no tag: the four character references that
`escapeChar` writes are read back, every other character stands for itself. -/
def decodeEntities : List Char → List Char
  | '&' :: 'a' :: 'm' :: 'p' :: ';' :: cs => '&' :: decodeEntities cs
  | '&' :: 'l' :: 't' :: ';' :: cs => '<' :: decodeEntities cs
  | '&' :: 'g' :: 't' :: ';' :: cs => '>' :: decodeEntities cs
  | '&' :: 'n' :: 'b' :: 's' :: 'p' :: ';' :: cs => '\u00a0' :: decodeEntities cs
  | c :: cs => c :: decodeEntities cs
  | [] => []

/-- Whether the markup goes on with an ASCII letter. -/
def startsWithLetter : List Char → Bool
  | c :: _ => c.isAlpha
  | [] => false

/-- The number of start tags in a piece of markup: an element is opened where a `<` is
followed by an ASCII letter. -/
def countStartTags : List Char → Nat
  | [] => 0
  | c :: cs => (if c = '<' && startsWithLetter cs then 1 else 0) + countStartTags cs

/-- `scrollToBottom()`: schedules the scroll after 100 ms. -/
def scrollToBottom (ui : ChatUI) : ChatUI :=
  { ui with timers := ui.timers ++ [⟨100, .scroll⟩] }

/-- `this.chatMessages.appendChild(messageDiv)` for a `messageDiv` just created with
`document.createElement`. -/
def appendNew (ui : ChatUI) (className innerHTML : String) : ChatUI :=
  { ui with
    chatMessages := ui.chatMessages ++ [⟨ui.nextId, className, innerHTML⟩]
    nextId := ui.nextId + 1 }

/-- The markup `addUserMessage` assigns. -/
def userMessageHTML (message : String) : String :=
  "\n            <div class=\"message-content\">\n                <p>" ++
  escapeHtml message ++
  "</p>\n            </div>\n        "

/-- `addUserMessage(message)`. -/
def addUserMessage (ui : ChatUI) (message : String) : ChatUI :=
  scrollToBottom (appendNew ui "message user-message" (userMessageHTML message))

/-- The markup `addUserFileMessage` assigns for a video. -/
def videoMessageHTML (file : File) : String :=
  "\n                <div class=\"message-content\">\n                    <p>Uploaded video:</p>\n                    <div class=\"uploaded-file\">\n                        <div class=\"file-icon\">🎥</div>\n                        <div class=\"file-info\">\n                            <div class=\"file-name\">" ++
  escapeHtml file.name ++
  "</div>\n                            <div class=\"file-size\">" ++
  formatFileSize file.size ++
  "</div>\n                        </div>\n                    </div>\n                </div>\n            "

/-- The markup the `onload` handler of `addUserFileMessage` assigns for an image, from the
data URL `result` of the reader. -/
def imageMessageHTML (result : String) : String :=
  "\n                    <div class=\"message-content\">\n                        <p>Uploaded image:</p>\n                        <img src=\"" ++
  result ++
  "\" alt=\"Uploaded image\" class=\"upload-preview\">\n                    </div>\n                "

/-- `addUserFileMessage(file)`. For an image the element is appended empty and the reader is
started; its markup is assigned when the reader has loaded. -/
def addUserFileMessage (ui : ChatUI) (file : File) : ChatUI :=
  if matchesThenAny file.type "image" then
    let ui := { ui with reads := ui.reads ++ [(file, ui.nextId)] }
    scrollToBottom (appendNew ui "message user-message" "")
  else
    scrollToBottom (appendNew ui "message user-message" (videoMessageHTML file))

/-- The `onload` handler set by `addUserFileMessage`, for the element `id`. -/
def readerOnload (ui : ChatUI) (id : Nat) (result : String) : ChatUI :=
  { ui with
    chatMessages := ui.chatMessages.map
      (fun e => if e.id = id then { e with innerHTML := imageMessageHTML result } else e) }

/-- The markup `addBotMessage` assigns. -/
def botMessageHTML (message : String) (isHTML : Bool) : String :=
  if isHTML then
    "\n                <div class=\"message-content\">\n                    " ++
    message ++
    "\n                </div>\n            "
  else
    "\n                <div class=\"message-content\">\n                    <p>" ++
    escapeHtml message ++
    "</p>\n                </div>\n            "

/-- `addBotMessage(message, isHTML)`; `isHTML` is `false` when the call leaves it out. -/
def addBotMessage (ui : ChatUI) (message : String) (isHTML : Bool) : ChatUI :=
  scrollToBottom (appendNew ui "message bot-message" (botMessageHTML message isHTML))

/-- The markup of the "Analyzing" placeholder. -/
def loadingHTML : String :=
  "\n            <div class=\"message-content\">\n                <p>Analyzing image... <span class=\"loading\"></span></p>\n            </div>\n        "

/-- The message `analyzeImage` passes to `addBotMessage` for a result with the given
`prediction`; `none` when evaluating the template throws, which it does when the prediction
has no string conversion. -/
def resultHTML (prediction : JsValue) : Option String :=
  match prediction.toStr with
  | none => none
  | some shown =>
    some (
      "\n                <p>Analysis complete!</p>\n                <div class=\"prediction-result " ++
      (if prediction = .string "REAL" then "prediction-real" else "prediction-fake") ++
      "\">\n                    Prediction: <strong>" ++
      shown ++
      "</strong>\n                </div>\n                <p style=\"margin-top: 8px; font-size: 0.9rem; color: #64748b;\">\n                    The model thinks this image is " ++
      (if prediction = .string "REAL" then "authentic" else "AI-generated or manipulated") ++
      ".\n                </p>\n            ")

/-- The text `analyzeImage` passes to `addBotMessage` in its `catch` block. -/
def errorText (error : JsError) : String :=
  "Sorry, there was an error analyzing the image: " ++ error.message

/-- The message of the `TypeError` raised by reading `result.prediction` when `result` is
`null` (the wording of V8). -/
def nullPredictionMessage : String := "Cannot read properties of null (reading 'prediction')"

/-- `loadingMessage.remove()`, for the element `id`. -/
def removeElement (ui : ChatUI) (id : Nat) : ChatUI :=
  { ui with chatMessages := ui.chatMessages.filter (fun e => e.id ≠ id) }

/-- `analyzeImage(file)` up to its `await`: the placeholder is appended and
`API.analyzeImage(file)` is called. Returns the new state and the identity of the
placeholder. -/
def analyzeImageBegin (ui : ChatUI) (file : File) : ChatUI × Nat :=
  let loading := ui.nextId
  let ui := scrollToBottom (appendNew ui "message bot-message" loadingHTML)
  ({ ui with requests := ui.requests ++ [(file, loading)] }, loading)

/-- `analyzeImage(file)` from its `await` on, with the outcome of `API.analyzeImage(file)`:
the rest of the `try` block for a returned result, the `catch` block for a thrown error. The
`try` block removes the placeholder and then evaluates its template; when that throws (the
result is `null`, or its prediction has no string conversion) the `catch` block runs with that
error and removes the placeholder once more. -/
def analyzeImageResume (ui : ChatUI) (loading : Nat) : Completion → ChatUI
  | .returned (.object _ _ prediction) =>
    match resultHTML prediction with
    | some message => addBotMessage (removeElement ui loading) message true
    | none =>
      addBotMessage (removeElement (removeElement ui loading) loading)
        (errorText ⟨conversionMessage⟩) false
  | .returned .null =>
    addBotMessage (removeElement (removeElement ui loading) loading)
      (errorText ⟨nullPredictionMessage⟩) false
  | .thrown error =>
    addBotMessage (removeElement ui loading) (errorText error) false

/-- The `setTimeout` calls `API.analyzeImage` made before it settled: the one it awaited, if
any. -/
def apiTimers (settled : Settled) : List Timer :=
  if settled.waited = 0 then [] else [⟨settled.waited, .resolve⟩]

/-- `analyzeImage(file)` from call to completion, when nothing else runs in between: `net` is
the outcome of the `fetch` call and `random` the value of `Math.random()`. -/
def analyzeImage (ui : ChatUI) (file : File) (net : FetchOutcome) (random : ℚ) : ChatUI :=
  let started := analyzeImageBegin ui file
  let settled := API.analyzeImage file net random
  let awaiting := { started.1 with timers := started.1.timers ++ apiTimers settled }
  analyzeImageResume awaiting started.2 settled.outcome

/-- `handleFileUpload(file)`, up to the `await` of the analysis it may start. -/
def handleFileUpload (ui : ChatUI) (file : File) : ChatUI :=
  if !matchesThenAny file.type "image" && !matchesThenAny file.type "video" then
    addBotMessage ui "Please upload only images or videos." false
  else
    let ui := addUserFileMessage ui file
    let ui :=
      if matchesThenAny file.type "image" then (analyzeImageBegin ui file).1
      else addBotMessage ui
        "Video uploaded successfully! (Analysis would be implemented similarly)" false
    { ui with fileInput := "" }

/-- The canned reply of `handleSendMessage`. -/
def cannedReply : String :=
  "I'm primarily designed to analyze images. Try uploading an image using the + button!"

/-- `handleSendMessage()`. -/
def handleSendMessage (ui : ChatUI) : ChatUI :=
  let message := jsTrim ui.chatInput
  if message ≠ "" then
    let ui := addUserMessage ui message
    let ui := { ui with chatInput := "" }
    { ui with timers := ui.timers ++ [⟨1000, .reply cannedReply⟩] }
  else ui

/-- Runs the callback of a timer. The scroll position is not part of the state, and what
follows the `resolve` of the awaited promise is `analyzeImageResume`. -/
def fire (ui : ChatUI) : Callback → ChatUI
  | .scroll => ui
  | .reply message => addBotMessage ui message false
  | .resolve => ui

/-- The markup of the message that ends an analysis, by the way `API.analyzeImage`
completed. -/
def resolvedHTML : Completion → String
  | .returned (.object _ _ prediction) =>
    match resultHTML prediction with
    | some message => botMessageHTML message true
    | none => botMessageHTML (errorText ⟨conversionMessage⟩) false
  | .returned .null => botMessageHTML (errorText ⟨nullPredictionMessage⟩) false
  | .thrown error => botMessageHTML (errorText error) false

/-- The analysis resolved to a verdict: a result was returned and its prediction is the string
REAL or the string FAKE. -/
def resolvesToVerdict : Completion → Bool
  | .returned (.object _ _ (.string v)) => v = "REAL" || v = "FAKE"
  | _ => false

/-- The top-level type of a media type: what stands before the slash. -/
def topLevelType (type : String) : String := String.mk (type.data.takeWhile (· ≠ '/'))

/-- The state of a page on which nothing has happened yet, with an empty message list. -/
def initial : ChatUI :=
  { chatMessages := [], chatInput := "", fileInput := "", nextId := 0,
    timers := [], reads := [], requests := [] }

/-- Node identities are fresh: every element of the message list was created before
`nextId`. -/
def Fresh (ui : ChatUI) : Prop := ∀ e ∈ ui.chatMessages, e.id < ui.nextId

instance (ui : ChatUI) : Decidable (Fresh ui) :=
  inferInstanceAs (Decidable (∀ e ∈ ui.chatMessages, e.id < ui.nextId))

end ChatUI
namespace ChatUI

/-! ### Decimal digits -/

theorem toString_data (n : Nat) : (toString n).data = Nat.toDigits 10 n := rfl

theorem digitChar_isDigit (m : Nat) (h : m < 10) : (Nat.digitChar m).isDigit = true := by
  interval_cases m <;> decide

theorem digitValue_digitChar (m : Nat) (h : m < 10) : digitValue (Nat.digitChar m) = m := by
  interval_cases m <;> decide

theorem toDigitsCore_all (p : Char → Prop) (hp : ∀ m, m < 10 → p (Nat.digitChar m)) :
    ∀ (fuel n : Nat) (ds : List Char), (∀ c ∈ ds, p c) →
      ∀ c ∈ Nat.toDigitsCore 10 fuel n ds, p c := by
  intro fuel
  induction fuel with
  | zero => intro n ds hds c hc; simpa [Nat.toDigitsCore] using hds c (by simpa [Nat.toDigitsCore] using hc)
  | succ fuel ih =>
    intro n ds hds c hc
    have hd : ∀ c ∈ Nat.digitChar (n % 10) :: ds, p c := by
      intro c hc
      rcases List.mem_cons.mp hc with h | h
      · subst h; exact hp _ (Nat.mod_lt _ (by decide))
      · exact hds c h
    simp only [Nat.toDigitsCore] at hc
    split at hc
    · exact hd c hc
    · exact ih _ _ hd c hc

theorem toDigits_all (p : Char → Prop) (hp : ∀ m, m < 10 → p (Nat.digitChar m)) (n : Nat) :
    ∀ c ∈ Nat.toDigits 10 n, p c :=
  toDigitsCore_all p hp _ _ [] (by simp)

theorem toDigits_isDigit (n : Nat) : ∀ c ∈ Nat.toDigits 10 n, c.isDigit = true :=
  toDigits_all (fun c => c.isDigit = true) digitChar_isDigit n

theorem foldl_toDigitsCore :
    ∀ (fuel n : Nat) (ds : List Char), n < fuel →
      (Nat.toDigitsCore 10 fuel n ds).foldl (fun acc c => 10 * acc + digitValue c) 0
        = ds.foldl (fun acc c => 10 * acc + digitValue c) n := by
  intro fuel
  induction fuel with
  | zero => intro n ds h; omega
  | succ fuel ih =>
    intro n ds h
    simp only [Nat.toDigitsCore]
    split
    · rename_i h0
      simp only [List.foldl_cons, digitValue_digitChar _ (Nat.mod_lt n (by decide : 10 > 0))]
      congr 1; omega
    · rename_i h0
      rw [ih (n / 10) _ (by omega)]
      simp only [List.foldl_cons, digitValue_digitChar _ (Nat.mod_lt n (by decide : 10 > 0))]
      congr 1; omega

theorem parseDigits_toDigits (n : Nat) : parseDigits (Nat.toDigits 10 n) = n := by
  unfold parseDigits Nat.toDigits
  rw [foldl_toDigitsCore _ _ _ (Nat.lt_succ_self n)]
  rfl

theorem parseDigits_append (xs ys : List Char) :
    parseDigits (xs ++ ys) = ys.foldl (fun acc c => 10 * acc + digitValue c) (parseDigits xs) := by
  simp [parseDigits, List.foldl_append]

theorem takeWhile_append_stop (p : Char → Bool) (xs : List Char) (y : Char) (ys : List Char)
    (hxs : ∀ c ∈ xs, p c = true) (hy : p y = false) :
    (xs ++ y :: ys).takeWhile p = xs ∧ (xs ++ y :: ys).dropWhile p = y :: ys := by
  induction xs with
  | nil => simp [List.takeWhile, List.dropWhile, hy]
  | cons x xs ih =>
    have hx : p x = true := hxs x (List.mem_cons_self _ _)
    have ih2 := ih (fun c hc => hxs c (List.mem_cons_of_mem _ hc))
    simp [List.takeWhile, List.dropWhile, hx, ih2.1, ih2.2]

theorem takeWhile_all (p : Char → Bool) (xs : List Char) (hxs : ∀ c ∈ xs, p c = true) :
    xs.takeWhile p = xs := by
  induction xs with
  | nil => rfl
  | cons x xs ih =>
    have hx : p x = true := hxs x (List.mem_cons_self _ _)
    simp [List.takeWhile, hx, ih (fun c hc => hxs c (List.mem_cons_of_mem _ hc))]

theorem twoDigits_data :
    ∀ f, f < 100 → (twoDigits f).data = [Nat.digitChar (f / 10), Nat.digitChar (f % 10)] := by
  decide

theorem padLeft_two : ∀ f, f < 100 → padLeft 2 (toString f) = twoDigits f := by
  decide

theorem padLeft_one : ∀ f, f < 10 → padLeft 1 (toString f) = toString f := by
  decide

/-- `parseFloat` reads back the hundredths that `toFixed(2)` wrote. -/
theorem parseFloat_toFixed2 (num den : Nat) :
    parseFloat (toFixed2 num den) = some ⟨(200 * num + den) / (2 * den), 2⟩ := by
  generalize hn : (200 * num + den) / (2 * den) = n
  have hdata : (toFixed2 num den).data
      = Nat.toDigits 10 (n / 100) ++ '.' ::
          [Nat.digitChar (n % 100 / 10), Nat.digitChar (n % 100 % 10)] := by
    simp only [toFixed2, hn, String.data_append, toString_data,
      twoDigits_data _ (Nat.mod_lt n (by decide : 100 > 0))]
    simp
  have hsplit := takeWhile_append_stop Char.isDigit (Nat.toDigits 10 (n / 100)) '.'
    [Nat.digitChar (n % 100 / 10), Nat.digitChar (n % 100 % 10)]
    (toDigits_isDigit _) (by decide)
  have hfd : ([Nat.digitChar (n % 100 / 10), Nat.digitChar (n % 100 % 10)]).takeWhile Char.isDigit
      = [Nat.digitChar (n % 100 / 10), Nat.digitChar (n % 100 % 10)] := by
    apply takeWhile_all
    intro c hc
    simp only [List.mem_cons, List.mem_singleton, List.mem_nil_iff, or_false] at hc
    rcases hc with h | h <;> subst h <;> apply digitChar_isDigit <;> omega
  unfold parseFloat
  simp only [hdata, hsplit.1, hsplit.2, hfd]
  simp only [List.isEmpty_cons, Bool.and_false, Bool.false_eq_true, if_false, List.length_cons,
    List.length_nil, parseDigits_append, parseDigits_toDigits, List.foldl_cons, List.foldl_nil]
  rw [digitValue_digitChar _ (by omega), digitValue_digitChar _ (by omega)]
  congr 2
  omega

/-- The string conversion of a number with two decimals drops its trailing zeros. -/
theorem numberToString_hundredths (n : Nat) :
    numberToString (some ⟨n, 2⟩) = shownValue n := by
  unfold numberToString shownValue
  by_cases h10 : n % 10 = 0
  · by_cases h100 : n / 10 % 10 = 0
    · have hs : stripZeros n 2 = (n / 100, 0) := by
        have e : n / 10 / 10 = n / 100 := by omega
        simp [stripZeros, h10, h100, e]
      have h : n % 100 = 0 := by omega
      simp [hs, h]
    · have hs : stripZeros n 2 = (n / 10, 1) := by
        simp [stripZeros, h10, h100]
      have h : ¬ n % 100 = 0 := by omega
      have e1 : n / 10 / 10 = n / 100 := by omega
      have e2 : n / 10 % 10 = n % 100 / 10 := by omega
      simp only [hs, h, h10, if_true, if_false, pow_one, e1, e2, one_ne_zero]
      rw [padLeft_one _ (by omega)]
  · have hs : stripZeros n 2 = (n, 2) := by
      simp [stripZeros, h10]
    have h : ¬ n % 100 = 0 := by omega
    simp only [hs, h10, h, if_false]
    rw [show (10 : Nat) ^ 2 = 100 from rfl, padLeft_two _ (Nat.mod_lt n (by decide))]
    simp

theorem floorLogAux_spec (k : Nat) (hk : 2 ≤ k) :
    ∀ (fuel n : Nat), 0 < n → n ≤ fuel →
      k ^ floorLogAux k fuel n ≤ n ∧ n < k ^ (floorLogAux k fuel n + 1) := by
  intro fuel
  induction fuel with
  | zero => intro n h0 h1; omega
  | succ fuel ih =>
    intro n h0 h1
    unfold floorLogAux
    split
    · rename_i hlt
      simp only [pow_zero, zero_add, pow_one]
      omega
    · rename_i hge
      have hge2 : k ≤ n := by omega
      have hq0 : 0 < n / k := Nat.div_pos hge2 (by omega)
      have hq1 : n / k ≤ fuel := by
        have : n / k < n := Nat.div_lt_self h0 (by omega)
        omega
      obtain ⟨l, u⟩ := ih (n / k) hq0 hq1
      constructor
      · calc k ^ (floorLogAux k fuel (n / k) + 1)
            = k ^ floorLogAux k fuel (n / k) * k := pow_succ _ _
          _ ≤ n / k * k := Nat.mul_le_mul_right _ l
          _ ≤ n := Nat.div_mul_le_self n k
      · rw [pow_succ]
        exact (Nat.div_lt_iff_lt_mul (by omega)).mp u

/-- The index computed by `formatFileSize` brackets the byte count between two consecutive
powers of `k`. -/
theorem floorLog_spec (k n : Nat) (hk : 2 ≤ k) (hn : 0 < n) :
    k ^ floorLog k n ≤ n ∧ n < k ^ (floorLog k n + 1) :=
  floorLogAux_spec k hk n n hn (le_refl n)

end ChatUI

namespace ChatUI

/-! ### Substrings -/

theorem isPrefixOf_append_self (xs ys : List Char) : xs.isPrefixOf (xs ++ ys) = true := by
  induction xs with
  | nil => simp [List.isPrefixOf]
  | cons x xs ih => simp [List.isPrefixOf, ih]

theorem includesAt_of_isPrefixOf (needle hay : List Char) (h : needle.isPrefixOf hay = true) :
    includesAt needle hay = true := by
  cases hay with
  | nil => simpa [includesAt] using h
  | cons c cs => simp [includesAt, h]

theorem includesAt_append_left (needle xs ys : List Char) (h : includesAt needle ys = true) :
    includesAt needle (xs ++ ys) = true := by
  induction xs with
  | nil => simpa using h
  | cons x xs ih => simp [includesAt, ih]

/-- A string includes each of its infixes. -/
theorem includes_infix (a m b : String) : includes (a ++ m ++ b) m = true := by
  unfold includes
  simp only [String.data_append, List.append_assoc]
  exact includesAt_append_left _ _ _
    (includesAt_of_isPrefixOf _ _ (isPrefixOf_append_self _ _))

/-- A string that includes a non-empty needle holds the needle's first character. -/
theorem mem_of_includesAt (c : Char) (needle hay : List Char)
    (h : includesAt (c :: needle) hay = true) : c ∈ hay := by
  induction hay with
  | nil => simp [includesAt, List.isPrefixOf] at h
  | cons x xs ih =>
    simp only [includesAt, List.isPrefixOf, Bool.or_eq_true, Bool.and_eq_true, beq_iff_eq] at h
    rcases h with ⟨h, _⟩ | h
    · subst h; exact List.mem_cons_self _ _
    · exact List.mem_cons_of_mem _ (ih h)

/-! ### Escaping -/

theorem escapeChars_append (xs ys : List Char) :
    escapeChars (xs ++ ys) = escapeChars xs ++ escapeChars ys := by
  induction xs with
  | nil => rfl
  | cons x xs ih => simp [escapeChars, ih]

theorem escapeHtml_append (a b : String) : escapeHtml (a ++ b) = escapeHtml a ++ escapeHtml b := by
  apply String.ext
  simp [escapeHtml, escapeChars_append]

theorem escapeChar_of_not_special (c : Char) (h : isSpecial c = false) : escapeChar c = [c] := by
  simp only [isSpecial, Bool.or_eq_false_iff, decide_eq_false_iff_not] at h
  obtain ⟨⟨⟨h1, h2⟩, h3⟩, h4⟩ := h
  simp [escapeChar, h1, h2, h3, h4]

theorem escapeChars_of_not_special (cs : List Char) (h : ∀ c ∈ cs, isSpecial c = false) :
    escapeChars cs = cs := by
  induction cs with
  | nil => rfl
  | cons x xs ih =>
    simp only [escapeChars, escapeChar_of_not_special x (h x (List.mem_cons_self _ _)),
      ih (fun c hc => h c (List.mem_cons_of_mem _ hc))]
    rfl

theorem escapeChar_no_angle (c : Char) : ∀ d ∈ escapeChar c, d ≠ '<' ∧ d ≠ '>' := by
  intro d hd
  unfold escapeChar at hd
  split at hd
  · revert d; decide
  · split at hd
    · revert d; decide
    · split at hd
      · revert d; decide
      · split at hd
        · revert d; decide
        · simp only [List.mem_singleton] at hd
          subst hd
          constructor <;> assumption

theorem escapeChars_no_angle (cs : List Char) : ∀ d ∈ escapeChars cs, d ≠ '<' ∧ d ≠ '>' := by
  induction cs with
  | nil => intro d hd; simp [escapeChars] at hd
  | cons x xs ih =>
    intro d hd
    simp only [escapeChars, List.mem_append] at hd
    rcases hd with h | h
    · exact escapeChar_no_angle x d h
    · exact ih d h

/-- Reading the character references back gives the text that was escaped. -/
theorem decodeEntities_escapeChars (cs : List Char) : decodeEntities (escapeChars cs) = cs := by
  induction cs with
  | nil => rfl
  | cons x xs ih =>
    simp only [escapeChars, escapeChar]
    split
    · rename_i h; subst h; simp [decodeEntities, ih]
    · split
      · rename_i h; subst h; simp [decodeEntities, ih]
      · split
        · rename_i h; subst h; simp [decodeEntities, ih]
        · split
          · rename_i h; subst h; simp [decodeEntities, ih]
          · rename_i h1 h2 h3 h4
            simp only [List.singleton_append]
            rw [decodeEntities]
            · rw [ih]
            all_goals (intros; simp_all)

/-! ### Start tags -/

theorem countStartTags_of_no_lt (xs ys : List Char) (h : ∀ c ∈ xs, c ≠ '<') :
    countStartTags (xs ++ ys) = countStartTags ys := by
  induction xs with
  | nil => rfl
  | cons x xs ih =>
    have hx : x ≠ '<' := h x (List.mem_cons_self _ _)
    simp [countStartTags, hx, ih (fun c hc => h c (List.mem_cons_of_mem _ hc))]

end ChatUI

namespace ChatUI

/-! ### The message list -/

theorem fresh_initial : Fresh initial := by
  intro e he
  cases he

theorem filter_fresh (ui : ChatUI) (hf : Fresh ui) :
    ui.chatMessages.filter (fun e => e.id ≠ ui.nextId) = ui.chatMessages := by
  apply List.filter_eq_self.mpr
  intro e he
  have := hf e he
  simp only [ne_eq, decide_not, Bool.not_eq_eq_eq_not, Bool.not_true, decide_eq_false_iff_not]
  omega

theorem fresh_appendNew (ui : ChatUI) (className innerHTML : String) (hf : Fresh ui) :
    Fresh (appendNew ui className innerHTML) := by
  intro e he
  simp only [appendNew, List.mem_append, List.mem_singleton] at he
  rcases he with h | h
  · have := hf e h
    simp only [appendNew]
    omega
  · subst h
    simp [appendNew]

theorem fresh_removeElement (ui : ChatUI) (id : Nat) (hf : Fresh ui) :
    Fresh (removeElement ui id) := by
  intro e he
  simp only [removeElement, List.mem_filter] at he
  exact hf e he.1

theorem analyzeImageResume_shown (ui : ChatUI) (loading : Nat) (s d p : JsValue)
    (message : String) (h : resultHTML p = some message) :
    analyzeImageResume ui loading (.returned (.object s d p))
      = addBotMessage (removeElement ui loading) message true := by
  simp [analyzeImageResume, h]

theorem analyzeImageResume_unconvertible (ui : ChatUI) (loading : Nat) (s d p : JsValue)
    (h : resultHTML p = none) :
    analyzeImageResume ui loading (.returned (.object s d p))
      = addBotMessage (removeElement (removeElement ui loading) loading)
          (errorText ⟨conversionMessage⟩) false := by
  simp [analyzeImageResume, h]

theorem resolvedHTML_shown (s d p : JsValue) (message : String)
    (h : resultHTML p = some message) :
    resolvedHTML (.returned (.object s d p)) = botMessageHTML message true := by
  simp [resolvedHTML, h]

theorem resolvedHTML_unconvertible (s d p : JsValue) (h : resultHTML p = none) :
    resolvedHTML (.returned (.object s d p))
      = botMessageHTML (errorText ⟨conversionMessage⟩) false := by
  simp [resolvedHTML, h]

theorem fresh_scrollToBottom (ui : ChatUI) (hf : Fresh ui) : Fresh (scrollToBottom ui) := hf

theorem fresh_addBotMessage (ui : ChatUI) (message : String) (isHTML : Bool) (hf : Fresh ui) :
    Fresh (addBotMessage ui message isHTML) :=
  fresh_appendNew ui _ _ hf

theorem fresh_analyzeImageBegin (ui : ChatUI) (file : File) (hf : Fresh ui) :
    Fresh (analyzeImageBegin ui file).1 :=
  fresh_appendNew ui _ _ hf

/-- Freshness of node identities is kept by the continuation of an analysis. -/
theorem fresh_analyzeImageResume (ui : ChatUI) (loading : Nat) (out : Completion)
    (hf : Fresh ui) : Fresh (analyzeImageResume ui loading out) := by
  rcases out with (_ | ⟨s, d, p⟩) | e
  · exact fresh_addBotMessage _ _ _ (fresh_removeElement _ _ (fresh_removeElement _ _ hf))
  · cases h : resultHTML p with
    | some message =>
      rw [analyzeImageResume_shown _ _ _ _ _ _ h]
      exact fresh_addBotMessage _ _ _ (fresh_removeElement _ _ hf)
    | none =>
      rw [analyzeImageResume_unconvertible _ _ _ _ _ h]
      exact fresh_addBotMessage _ _ _ (fresh_removeElement _ _ (fresh_removeElement _ _ hf))
  · exact fresh_addBotMessage _ _ _ (fresh_removeElement _ _ hf)

/-- Freshness of node identities is kept by `handleSendMessage`. -/
theorem fresh_handleSendMessage (ui : ChatUI) (hf : Fresh ui) : Fresh (handleSendMessage ui) := by
  by_cases h : jsTrim ui.chatInput = ""
  · have e : handleSendMessage ui = ui := by simp [handleSendMessage, h]
    rw [e]
    exact hf
  · have e : (handleSendMessage ui).chatMessages
          = (appendNew ui "message user-message"
              (userMessageHTML (jsTrim ui.chatInput))).chatMessages ∧
        (handleSendMessage ui).nextId
          = (appendNew ui "message user-message"
              (userMessageHTML (jsTrim ui.chatInput))).nextId := by
      simp [handleSendMessage, h, addUserMessage, scrollToBottom]
    have hn := fresh_appendNew ui "message user-message"
      (userMessageHTML (jsTrim ui.chatInput)) hf
    intro el hel
    rw [e.1] at hel
    rw [e.2]
    exact hn el hel

/-- Freshness of node identities is kept by `handleFileUpload`. -/
theorem fresh_handleFileUpload (ui : ChatUI) (file : File) (hf : Fresh ui) :
    Fresh (handleFileUpload ui file) := by
  have hfile : Fresh (addUserFileMessage ui file) := by
    unfold addUserFileMessage
    split
    · exact fresh_appendNew { ui with reads := ui.reads ++ [(file, ui.nextId)] } _ _ hf
    · exact fresh_appendNew ui _ _ hf
  unfold handleFileUpload
  split
  · exact fresh_addBotMessage _ _ _ hf
  · split
    · exact fresh_analyzeImageBegin _ file hfile
    · exact fresh_addBotMessage _ _ _ hfile

/-- The continuation of an analysis removes the placeholder and appends one bot message. -/
theorem analyzeImageResume_chatMessages (mid : ChatUI) (loading : Nat) (out : Completion) :
    (analyzeImageResume mid loading out).chatMessages
      = mid.chatMessages.filter (fun e => e.id ≠ loading)
          ++ [⟨mid.nextId, "message bot-message", resolvedHTML out⟩] := by
  rcases out with (_ | ⟨s, d, p⟩) | e
  · simp [analyzeImageResume, addBotMessage, scrollToBottom, appendNew, removeElement,
      resolvedHTML, List.filter_filter]
  · cases h : resultHTML p with
    | some message =>
      rw [analyzeImageResume_shown _ _ _ _ _ _ h, resolvedHTML_shown _ _ _ _ h]
      simp [addBotMessage, scrollToBottom, appendNew, removeElement]
    | none =>
      rw [analyzeImageResume_unconvertible _ _ _ _ _ h, resolvedHTML_unconvertible _ _ _ h]
      simp [addBotMessage, scrollToBottom, appendNew, removeElement, List.filter_filter]
  · simp [analyzeImageResume, addBotMessage, scrollToBottom, appendNew, removeElement,
      resolvedHTML, List.filter_filter]

/-- The continuation of an analysis schedules one more scroll and nothing else. -/
theorem analyzeImageResume_timers (mid : ChatUI) (loading : Nat) (out : Completion) :
    (analyzeImageResume mid loading out).timers = mid.timers ++ [⟨100, .scroll⟩] := by
  rcases out with (_ | ⟨s, d, p⟩) | e
  · simp [analyzeImageResume, addBotMessage, scrollToBottom, appendNew, removeElement]
  · cases h : resultHTML p with
    | some message =>
      rw [analyzeImageResume_shown _ _ _ _ _ _ h]
      simp [addBotMessage, scrollToBottom, appendNew, removeElement]
    | none =>
      rw [analyzeImageResume_unconvertible _ _ _ _ _ h]
      simp [addBotMessage, scrollToBottom, appendNew, removeElement]
  · simp [analyzeImageResume, addBotMessage, scrollToBottom, appendNew, removeElement]

/-- The timers of an analysis that nothing interleaves with: the scroll for the placeholder,
the wait of `API.analyzeImage` if it made one, the scroll for the final message. -/
theorem analyzeImage_timers (ui : ChatUI) (file : File) (net : FetchOutcome) (random : ℚ) :
    (analyzeImage ui file net random).timers
      = ui.timers ++ [⟨100, .scroll⟩] ++ apiTimers (API.analyzeImage file net random)
          ++ [⟨100, .scroll⟩] := by
  unfold analyzeImage
  rw [analyzeImageResume_timers]
  simp [analyzeImageBegin, scrollToBottom, appendNew]

/-- An analysis that nothing interleaves with leaves the earlier messages as they were and
adds one bot message. -/
theorem analyzeImage_chatMessages (ui : ChatUI) (file : File) (net : FetchOutcome) (random : ℚ)
    (hf : Fresh ui) :
    (analyzeImage ui file net random).chatMessages
      = ui.chatMessages ++ [⟨ui.nextId + 1, "message bot-message",
          resolvedHTML (API.analyzeImage file net random).outcome⟩] := by
  unfold analyzeImage
  simp only [analyzeImageResume_chatMessages]
  simp only [analyzeImageBegin, scrollToBottom, appendNew, List.filter_append, filter_fresh ui hf]
  simp

/-! ### `API.analyzeImage` -/

/-- `API.analyzeImage` never returns `null`. -/
theorem analyzeImage_outcome_cases (file : File) (net : FetchOutcome) (random : ℚ) :
    (∃ s d p, (API.analyzeImage file net random).outcome = .returned (.object s d p)) ∨
    (∃ e, (API.analyzeImage file net random).outcome = .thrown e) := by
  unfold API.analyzeImage
  cases h : API.analyzeImageTry net with
  | returned r =>
    left
    cases r with
    | null =>
      exfalso
      unfold API.analyzeImageTry at h
      split at h
      · cases h
      · split at h
        · cases h
        · split at h
          · cases h
          · cases h
          · split at h <;> cases h
    | object s d p => exact ⟨s, d, p, rfl⟩
  | thrown e =>
    simp only
    split
    · left; exact ⟨_, _, _, rfl⟩
    · right; exact ⟨e, rfl⟩

theorem httpErrorMessage_chars (status : Nat) :
    ∀ c ∈ ("HTTP error! status: " ++ toString status).data,
      isSpecial c = false ∧ c ≠ 'F' ∧ c ≠ 'N' := by
  intro c hc
  simp only [String.data_append, List.mem_append, toString_data] at hc
  rcases hc with h | h
  · revert c; decide
  · exact toDigits_all (fun c => isSpecial c = false ∧ c ≠ 'F' ∧ c ≠ 'N')
      (by intro m hm; interval_cases m <;> decide) status c h

theorem escapeHtml_of_not_special (s : String) (h : ∀ c ∈ s.data, isSpecial c = false) :
    escapeHtml s = s := by
  apply String.ext
  simp [escapeHtml, escapeChars_of_not_special s.data h]

/-- The message of an HTTP error names no connectivity error. -/
theorem httpErrorMessage_not_connectivity (status : Nat) :
    includes ("HTTP error! status: " ++ toString status) "Failed to fetch" = false ∧
    includes ("HTTP error! status: " ++ toString status) "NetworkError" = false := by
  constructor
  · cases h : includes ("HTTP error! status: " ++ toString status) "Failed to fetch" with
    | false => rfl
    | true =>
      exfalso
      have hm := mem_of_includesAt 'F' "ailed to fetch".data _ h
      exact (httpErrorMessage_chars status 'F' hm).2.1 rfl
  · cases h : includes ("HTTP error! status: " ++ toString status) "NetworkError" with
    | false => rfl
    | true =>
      exfalso
      have hm := mem_of_includesAt 'N' "etworkError".data _ h
      exact (httpErrorMessage_chars status 'N' hm).2.2 rfl

/-- A service error whose detail names no connectivity error is thrown with the detail as its
message. -/
theorem analyzeImage_service_error (file : File) (status : Nat) (detail : String)
    (prediction : JsValue) (random : ℚ) (hok : responseOk status = true)
    (h1 : includes detail "Failed to fetch" = false) (h2 : includes detail "NetworkError" = false) :
    API.analyzeImage file
        (.response status (.value (.object (.string "error") (.string detail) prediction))) random
      = ⟨0, .thrown ⟨detail⟩⟩ := by
  simp [API.analyzeImage, API.analyzeImageTry, hok, JsError.ofValue, JsValue.toStr, h1, h2]

set_option maxRecDepth 20000 in
/-- The rich result for a verdict does not hold the text of the error message. -/
theorem richResult_not_error_text (v : String) (hv : v = "REAL" ∨ v = "FAKE") :
    includes
      ("\n                <div class=\"message-content\">\n                    " ++
        ("\n                <p>Analysis complete!</p>\n                <div class=\"prediction-result " ++
          (if v = "REAL" then "prediction-real" else "prediction-fake") ++
          "\">\n                    Prediction: <strong>" ++
          v ++
          "</strong>\n                </div>\n                <p style=\"margin-top: 8px; font-size: 0.9rem; color: #64748b;\">\n                    The model thinks this image is " ++
          (if v = "REAL" then "authentic" else "AI-generated or manipulated") ++
          ".\n                </p>\n            ") ++
        "\n                </div>\n            ")
      "Sorry, there was an error" = false := by
  generalize hm : includes _ "Sorry, there was an error" = b
  cases b with
  | false => rfl
  | true =>
    exfalso
    have hm2 := mem_of_includesAt 'S' "orry, there was an error".data _ hm
    rcases hv with hv | hv <;> subst hv <;> revert hm2 <;> decide

/-- What `trim` leaves starts with no white space. -/
theorem dropWhile_head_not (p : Char → Bool) (l : List Char) (c : Char)
    (h : (l.dropWhile p).head? = some c) : p c = false := by
  induction l with
  | nil => simp at h
  | cons x xs ih =>
    by_cases hx : p x = true
    · simp only [List.dropWhile_cons, hx, if_true] at h
      exact ih h
    · simp only [List.dropWhile_cons, hx, Bool.false_eq_true, if_false, List.head?_cons,
        Option.some.injEq] at h
      subst h
      simpa using hx

/-- The input is the trimmed text between two runs of white space, and the trimmed text neither
starts nor ends with white space. -/
theorem jsTrim_decompose (s : String) :
    ∃ before after_, s.data = before ++ (jsTrim s).data ++ after_ ∧
      (∀ c ∈ before, isJsWhiteSpace c = true) ∧ (∀ c ∈ after_, isJsWhiteSpace c = true) ∧
      (∀ c, (jsTrim s).data.head? = some c → isJsWhiteSpace c = false) ∧
      (∀ c, (jsTrim s).data.getLast? = some c → isJsWhiteSpace c = false) := by
  have h1 := List.takeWhile_append_dropWhile isJsWhiteSpace s.data
  have h2 := List.takeWhile_append_dropWhile isJsWhiteSpace
    (s.data.dropWhile isJsWhiteSpace).reverse
  have h3 : s.data.dropWhile isJsWhiteSpace
      = ((s.data.dropWhile isJsWhiteSpace).reverse.dropWhile isJsWhiteSpace).reverse
        ++ ((s.data.dropWhile isJsWhiteSpace).reverse.takeWhile isJsWhiteSpace).reverse := by
    rw [← List.reverse_append, h2, List.reverse_reverse]
  have ht : (jsTrim s).data
      = ((s.data.dropWhile isJsWhiteSpace).reverse.dropWhile isJsWhiteSpace).reverse := rfl
  refine ⟨s.data.takeWhile isJsWhiteSpace,
    ((s.data.dropWhile isJsWhiteSpace).reverse.takeWhile isJsWhiteSpace).reverse, ?_, ?_, ?_,
    ?_, ?_⟩
  · rw [ht, List.append_assoc, ← h3, h1]
  · intro c hc
    exact List.mem_takeWhile_imp hc
  · intro c hc
    exact List.mem_takeWhile_imp (List.mem_reverse.mp hc)
  · intro c hc
    apply dropWhile_head_not isJsWhiteSpace s.data c
    rw [h3, ← ht]
    cases hd : (jsTrim s).data with
    | nil => rw [hd] at hc; simp at hc
    | cons x xs => rw [hd] at hc; simpa using hc
  · intro c hc
    apply dropWhile_head_not isJsWhiteSpace (s.data.dropWhile isJsWhiteSpace).reverse c
    rw [ht, List.getLast?_reverse] at hc
    exact hc

/-- A file whose type holds neither "image" nor "video" gets the rejection and nothing else. -/
theorem handleFileUpload_rejects (ui : ChatUI) (file : File)
    (hi : includes file.type "image" = false) (hv : includes file.type "video" = false) :
    handleFileUpload ui file
      = addBotMessage ui "Please upload only images or videos." false := by
  simp [handleFileUpload, matchesThenAny, hi, hv]

end ChatUI

namespace ChatUI

/-! ### Claims on `formatFileSize` -/

/-- C1 (as stated, refuted): `formatFileSize` does not return "1.00 KB" for 1024 nor "1.00 MB"
for 1048576, so the three values the claim lists do not all hold. -/
theorem formatFileSize_1024_not_two_decimals :
    ¬ (formatFileSize 0 = "0 Bytes" ∧ formatFileSize 1024 = "1.00 KB" ∧
        formatFileSize 1048576 = "1.00 MB") := by
  decide

/-- C1 (amended): `formatFileSize` returns "0 Bytes" for 0, "1 KB" for 1024 and "1 MB" for
1048576: the number goes through `parseFloat` before it is joined to the unit, which drops
the trailing zeros of `toFixed(2)`. -/
theorem formatFileSize_fixed_points :
    formatFileSize 0 = "0 Bytes" ∧ formatFileSize 1024 = "1 KB" ∧
      formatFileSize 1048576 = "1 MB" := by
  decide

/-- C2 (as stated, refuted): at 1536 bytes the value is not shown with two decimal places:
the code returns "1.5 KB" where the two-decimal form is "1.50 KB". -/
theorem formatFileSize_two_decimals_refuted :
    formatFileSize 1536 = "1.5 KB" ∧ formatSizeSpec 1536 = "1.50 KB" ∧
      formatFileSize 1536 ≠ formatSizeSpec 1536 := by
  decide

/-- C2 (amended): `formatFileSize 0` is "0 Bytes", and for a byte size `0 < bytes < 1024 ^ 4`
the result is `<value> <unit>` where the unit is the `i`-th of Bytes, KB, MB, GB with
`1024 ^ i ≤ bytes < 1024 ^ (i + 1)`, and the value is `bytes / 1024 ^ i` rounded to the nearest
hundredth `n / 100` (halves up) and written without trailing zeros. -/
theorem formatFileSize_unit_and_value (bytes : Nat) (hpos : 0 < bytes)
    (hlt : bytes < 1024 ^ 4) :
    formatFileSize 0 = "0 Bytes" ∧
    ∃ i n u, sizes.get? i = some u ∧ 1024 ^ i ≤ bytes ∧ bytes < 1024 ^ (i + 1) ∧
      2 * n * 1024 ^ i ≤ 200 * bytes + 1024 ^ i ∧
      200 * bytes + 1024 ^ i < 2 * (n + 1) * 1024 ^ i ∧
      formatFileSize bytes = shownValue n ++ " " ++ u := by
  refine ⟨by decide, ?_⟩
  obtain ⟨hlo, hhi⟩ := floorLog_spec 1024 bytes (by decide) hpos
  generalize hi : floorLog 1024 bytes = i at hlo hhi
  have hi4 : i < 4 := by
    have : 1024 ^ i < 1024 ^ 4 := lt_of_le_of_lt hlo hlt
    exact (Nat.pow_lt_pow_iff_right (by decide : 1 < 1024)).mp this
  have hd : 0 < 1024 ^ i := Nat.pow_pos (by decide)
  generalize hdd : 1024 ^ i = d at hlo hd
  have hfmt : formatFileSize bytes
      = shownValue ((200 * bytes + d) / (2 * d)) ++ " " ++ sizesAt i := by
    unfold formatFileSize
    rw [if_neg (by omega)]
    simp only [hi, hdd, parseFloat_toFixed2, numberToString_hundredths]
  have hu : ∃ u, sizes.get? i = some u ∧ sizesAt i = u := by
    interval_cases i <;> exact ⟨_, rfl, rfl⟩
  obtain ⟨u, hu1, hu2⟩ := hu
  refine ⟨i, (200 * bytes + d) / (2 * d), u, hu1, ?_, ?_, ?_, ?_, ?_⟩
  · rw [hdd]; exact hlo
  · exact hhi
  · rw [hdd]
    have := Nat.div_mul_le_self (200 * bytes + d) (2 * d)
    calc 2 * ((200 * bytes + d) / (2 * d)) * d
        = (200 * bytes + d) / (2 * d) * (2 * d) := by ring
      _ ≤ 200 * bytes + d := this
  · rw [hdd]
    have h2 : 0 < 2 * d := by omega
    have := Nat.lt_mul_div_succ (200 * bytes + d) h2
    calc 200 * bytes + d < 2 * d * ((200 * bytes + d) / (2 * d) + 1) := this
      _ = 2 * ((200 * bytes + d) / (2 * d) + 1) * d := by ring
  · rw [hfmt, hu2]

/-- Witness for `formatFileSize_unit_and_value`: a file of 1536 bytes. -/
theorem formatFileSize_unit_and_value_witness :
    0 < 1536 ∧ 1536 < 1024 ^ 4 ∧
    (formatFileSize 0 = "0 Bytes" ∧
    ∃ i n u, sizes.get? i = some u ∧ 1024 ^ i ≤ 1536 ∧ 1536 < 1024 ^ (i + 1) ∧
      2 * n * 1024 ^ i ≤ 200 * 1536 + 1024 ^ i ∧
      200 * 1536 + 1024 ^ i < 2 * (n + 1) * 1024 ^ i ∧
      formatFileSize 1536 = shownValue n ++ " " ++ u) :=
  ⟨by decide, by decide, formatFileSize_unit_and_value 1536 (by decide) (by decide)⟩

end ChatUI

namespace ChatUI

/-! ### Claims on `API.analyzeImage` and the analysis flow -/

/-- C3 (failing input): a response with status 200 whose body has status "error" and a detail
that names a network error does not make `API.analyzeImage` fail with that detail: the `catch`
block takes the thrown service error for a connectivity failure, waits 2 seconds and returns
the simulated result. -/
theorem analyzeImage_service_error_masked (random : ℚ) :
    responseOk 200 = true ∧
    API.analyzeImage ⟨"photo.png", "image/png", 2048⟩
        (.response 200 (.value (.object (.string "error")
          (.string "NetworkError: model backend unreachable") .undefined))) random
      = ⟨2000, .returned (API.simulated random)⟩ := by
  refine ⟨by decide, ?_⟩
  have h : includes "NetworkError: model backend unreachable" "NetworkError" = true := by decide
  simp [API.analyzeImage, API.analyzeImageTry, responseOk, JsError.ofValue, JsValue.toStr, h]

/-- C4 (as stated, refuted): for a response with HTTP status 500 the analysis of an image does
not resolve to a verdict, it fails with an HTTP error. -/
theorem analyzeImage_http500_no_verdict :
    (API.analyzeImage ⟨"photo.png", "image/png", 2048⟩
        (.response 500 (.value (.object (.string "success") .undefined (.string "REAL"))))
        (1 / 4)).outcome = .thrown ⟨"HTTP error! status: 500"⟩ ∧
    resolvesToVerdict (API.analyzeImage ⟨"photo.png", "image/png", 2048⟩
        (.response 500 (.value (.object (.string "success") .undefined (.string "REAL"))))
        (1 / 4)).outcome = false := by
  decide

/-- C4 (amended): when the network call gives a response with a success status and a body whose
status is not "error" and whose prediction is REAL or FAKE, or fails at transport level with a
message containing "Failed to fetch" or "NetworkError", `API.analyzeImage` resolves to a
verdict REAL or FAKE and the flow ends by appending the rich-result message that shows this
verdict. When the response has a status that is not a success status, `API.analyzeImage`
resolves to the failure "HTTP error! status: <status>" and to no verdict. -/
theorem analyzeImage_resolves_to_verdict (ui : ChatUI) (file : File) (net : FetchOutcome)
    (random : ℚ) (hf : Fresh ui) :
    (((∃ status s d p, net = .response status (.value (.object s d p)) ∧
          responseOk status = true ∧ s ≠ .string "error" ∧
          (p = .string "REAL" ∨ p = .string "FAKE")) ∨
        (∃ message, net = .rejected message ∧
          (includes message "Failed to fetch" = true ∨
            includes message "NetworkError" = true))) →
      ∃ s d v, (v = "REAL" ∨ v = "FAKE") ∧
        (API.analyzeImage file net random).outcome = .returned (.object s d (.string v)) ∧
        resolvesToVerdict (API.analyzeImage file net random).outcome = true ∧
        (analyzeImage ui file net random).chatMessages
          = ui.chatMessages ++ [⟨ui.nextId + 1, "message bot-message",
              "\n                <div class=\"message-content\">\n                    " ++
                ("\n                <p>Analysis complete!</p>\n                <div class=\"prediction-result " ++
                  (if v = "REAL" then "prediction-real" else "prediction-fake") ++
                  "\">\n                    Prediction: <strong>" ++
                  v ++
                  "</strong>\n                </div>\n                <p style=\"margin-top: 8px; font-size: 0.9rem; color: #64748b;\">\n                    The model thinks this image is " ++
                  (if v = "REAL" then "authentic" else "AI-generated or manipulated") ++
                  ".\n                </p>\n            ") ++
                "\n                </div>\n            "⟩]) ∧
    (∀ status json, net = .response status json → responseOk status = false →
      (API.analyzeImage file net random).outcome
        = .thrown ⟨"HTTP error! status: " ++ toString status⟩ ∧
      resolvesToVerdict (API.analyzeImage file net random).outcome = false) := by
  constructor
  · intro h
    have key : ∃ s d v, (v = "REAL" ∨ v = "FAKE") ∧
        (API.analyzeImage file net random).outcome = .returned (.object s d (.string v)) := by
      rcases h with ⟨status, s, d, p, hnet, hok, hs, hp⟩ | ⟨message, hnet, hm⟩
      · subst hnet
        rcases hp with hp | hp
        · exact ⟨s, d, "REAL", Or.inl rfl, by
            simp [API.analyzeImage, API.analyzeImageTry, hok, hs, hp]⟩
        · exact ⟨s, d, "FAKE", Or.inr rfl, by
            simp [API.analyzeImage, API.analyzeImageTry, hok, hs, hp]⟩
      · subst hnet
        have hc : (includes message "Failed to fetch" || includes message "NetworkError")
            = true := by
          rcases hm with hm | hm <;> simp [hm]
        refine ⟨.string "success", .undefined, if random > 1 / 2 then "REAL" else "FAKE", ?_, ?_⟩
        · split <;> simp
        · simp [API.analyzeImage, API.analyzeImageTry, hc, API.simulated]
    obtain ⟨s, d, v, hv, hout⟩ := key
    refine ⟨s, d, v, hv, hout, ?_, ?_⟩
    · rw [hout]
      rcases hv with hv | hv <;> subst hv <;> rfl
    · rw [analyzeImage_chatMessages ui file net random hf, hout]
      simp [resolvedHTML, resultHTML, JsValue.toStr, botMessageHTML]
  · intro status json hnet hok
    subst hnet
    obtain ⟨h1, h2⟩ := httpErrorMessage_not_connectivity status
    have hout : (API.analyzeImage file (.response status json) random).outcome
        = .thrown ⟨"HTTP error! status: " ++ toString status⟩ := by
      simp [API.analyzeImage, API.analyzeImageTry, hok, h1, h2]
    exact ⟨hout, by rw [hout]; rfl⟩

/-- Witness for `analyzeImage_resolves_to_verdict`: in a conversation with one earlier message,
a response with status 200 that predicts FAKE, and a response with status 404. -/
theorem analyzeImage_resolves_to_verdict_witness :
    Fresh ⟨[⟨0, "message bot-message", "hello"⟩], "", "", 1, [], [], []⟩ ∧
    (∃ s d v, (v = "REAL" ∨ v = "FAKE") ∧
      (API.analyzeImage ⟨"photo.png", "image/png", 2048⟩
        (.response 200 (.value (.object (.string "success") .undefined (.string "FAKE"))))
        (3 / 4)).outcome = .returned (.object s d (.string v)) ∧
      resolvesToVerdict (API.analyzeImage ⟨"photo.png", "image/png", 2048⟩
        (.response 200 (.value (.object (.string "success") .undefined (.string "FAKE"))))
        (3 / 4)).outcome = true ∧
      (analyzeImage ⟨[⟨0, "message bot-message", "hello"⟩], "", "", 1, [], [], []⟩
        ⟨"photo.png", "image/png", 2048⟩
        (.response 200 (.value (.object (.string "success") .undefined (.string "FAKE"))))
        (3 / 4)).chatMessages
        = [⟨0, "message bot-message", "hello"⟩] ++ [⟨1 + 1, "message bot-message",
            "\n                <div class=\"message-content\">\n                    " ++
              ("\n                <p>Analysis complete!</p>\n                <div class=\"prediction-result " ++
                (if v = "REAL" then "prediction-real" else "prediction-fake") ++
                "\">\n                    Prediction: <strong>" ++
                v ++
                "</strong>\n                </div>\n                <p style=\"margin-top: 8px; font-size: 0.9rem; color: #64748b;\">\n                    The model thinks this image is " ++
                (if v = "REAL" then "authentic" else "AI-generated or manipulated") ++
                ".\n                </p>\n            ") ++
              "\n                </div>\n            "⟩]) ∧
    responseOk 404 = false ∧
    ((API.analyzeImage ⟨"photo.png", "image/png", 2048⟩ (.response 404 (.value .null)) (3 / 4)).outcome
        = .thrown ⟨"HTTP error! status: " ++ toString 404⟩ ∧
      resolvesToVerdict
        (API.analyzeImage ⟨"photo.png", "image/png", 2048⟩ (.response 404 (.value .null)) (3 / 4)).outcome = false) :=
  ⟨by decide,
    (analyzeImage_resolves_to_verdict ⟨[⟨0, "message bot-message", "hello"⟩], "", "", 1, [], [], []⟩
      ⟨"photo.png", "image/png", 2048⟩
      (.response 200 (.value (.object (.string "success") .undefined (.string "FAKE"))))
      (3 / 4) (by decide)).1
      (Or.inl ⟨200, .string "success", .undefined, .string "FAKE", rfl, by decide, by decide,
        Or.inr rfl⟩),
    by decide,
    (analyzeImage_resolves_to_verdict ⟨[⟨0, "message bot-message", "hello"⟩], "", "", 1, [], [], []⟩
      ⟨"photo.png", "image/png", 2048⟩ (.response 404 (.value .null)) (3 / 4) (by decide)).2
      404 (.value .null) rfl (by decide)⟩

/-- C6: when the request fails at transport level with a message that contains
"Failed to fetch" or "NetworkError", then for every value of the random source
`API.analyzeImage` does not fail: after its 2 second wait it returns a result with status
"success" and the prediction REAL (random value above 0.5) or FAKE. The conversation gets
exactly one more message, the rich result that shows this prediction, and no error message;
the timers are the two scrolls and the 2 second wait. -/
theorem analyzeImage_connectivity_fallback (ui : ChatUI) (file : File) (message : String)
    (random : ℚ) (hf : Fresh ui)
    (h : includes message "Failed to fetch" = true ∨ includes message "NetworkError" = true) :
    ∃ v, v = (if random > 1 / 2 then "REAL" else "FAKE") ∧ (v = "REAL" ∨ v = "FAKE") ∧
      API.analyzeImage file (.rejected message) random
        = ⟨2000, .returned (.object (.string "success") .undefined (.string v))⟩ ∧
      (analyzeImage ui file (.rejected message) random).chatMessages
        = ui.chatMessages ++ [⟨ui.nextId + 1, "message bot-message",
            "\n                <div class=\"message-content\">\n                    " ++
              ("\n                <p>Analysis complete!</p>\n                <div class=\"prediction-result " ++
                (if v = "REAL" then "prediction-real" else "prediction-fake") ++
                "\">\n                    Prediction: <strong>" ++
                v ++
                "</strong>\n                </div>\n                <p style=\"margin-top: 8px; font-size: 0.9rem; color: #64748b;\">\n                    The model thinks this image is " ++
                (if v = "REAL" then "authentic" else "AI-generated or manipulated") ++
                ".\n                </p>\n            ") ++
              "\n                </div>\n            "⟩] ∧
      includes
        ("\n                <div class=\"message-content\">\n                    " ++
          ("\n                <p>Analysis complete!</p>\n                <div class=\"prediction-result " ++
            (if v = "REAL" then "prediction-real" else "prediction-fake") ++
            "\">\n                    Prediction: <strong>" ++
            v ++
            "</strong>\n                </div>\n                <p style=\"margin-top: 8px; font-size: 0.9rem; color: #64748b;\">\n                    The model thinks this image is " ++
            (if v = "REAL" then "authentic" else "AI-generated or manipulated") ++
            ".\n                </p>\n            ") ++
          "\n                </div>\n            ")
        "Sorry, there was an error" = false ∧
      (analyzeImage ui file (.rejected message) random).timers
        = ui.timers ++ [⟨100, .scroll⟩, ⟨2000, .resolve⟩, ⟨100, .scroll⟩] := by
  have hc : (includes message "Failed to fetch" || includes message "NetworkError") = true := by
    rcases h with h | h <;> simp [h]
  have hapi : API.analyzeImage file (.rejected message) random
      = ⟨2000, .returned (.object (.string "success") .undefined
          (.string (if random > 1 / 2 then "REAL" else "FAKE")))⟩ := by
    simp only [API.analyzeImage, API.analyzeImageTry, hc, if_true, API.simulated]
  have hv : (if random > 1 / 2 then "REAL" else "FAKE") = "REAL" ∨
      (if random > 1 / 2 then "REAL" else "FAKE") = "FAKE" := by
    split <;> simp
  refine ⟨if random > 1 / 2 then "REAL" else "FAKE", rfl, hv, hapi, ?_, ?_, ?_⟩
  · rw [analyzeImage_chatMessages ui file _ random hf, hapi]
    simp [resolvedHTML, resultHTML, JsValue.toStr, botMessageHTML]
  · exact richResult_not_error_text _ hv
  · rw [analyzeImage_timers, hapi]
    simp [apiTimers]

/-- Witness for `analyzeImage_connectivity_fallback`: the message "Failed to fetch", in a
conversation with one earlier message. -/
theorem analyzeImage_connectivity_fallback_witness :
    Fresh ⟨[⟨0, "message bot-message", "hello"⟩], "", "", 1, [], [], []⟩ ∧
    (includes "Failed to fetch" "Failed to fetch" = true ∨
      includes "Failed to fetch" "NetworkError" = true) ∧
    ∃ v, v = (if (3 / 4 : ℚ) > 1 / 2 then "REAL" else "FAKE") ∧ (v = "REAL" ∨ v = "FAKE") ∧
      API.analyzeImage ⟨"photo.png", "image/png", 2048⟩ (.rejected "Failed to fetch") (3 / 4)
        = ⟨2000, .returned (.object (.string "success") .undefined (.string v))⟩ ∧
      (analyzeImage ⟨[⟨0, "message bot-message", "hello"⟩], "", "", 1, [], [], []⟩
        ⟨"photo.png", "image/png", 2048⟩ (.rejected "Failed to fetch") (3 / 4)).chatMessages
        = [⟨0, "message bot-message", "hello"⟩] ++ [⟨1 + 1, "message bot-message",
            "\n                <div class=\"message-content\">\n                    " ++
              ("\n                <p>Analysis complete!</p>\n                <div class=\"prediction-result " ++
                (if v = "REAL" then "prediction-real" else "prediction-fake") ++
                "\">\n                    Prediction: <strong>" ++
                v ++
                "</strong>\n                </div>\n                <p style=\"margin-top: 8px; font-size: 0.9rem; color: #64748b;\">\n                    The model thinks this image is " ++
                (if v = "REAL" then "authentic" else "AI-generated or manipulated") ++
                ".\n                </p>\n            ") ++
              "\n                </div>\n            "⟩] ∧
      includes
        ("\n                <div class=\"message-content\">\n                    " ++
          ("\n                <p>Analysis complete!</p>\n                <div class=\"prediction-result " ++
            (if v = "REAL" then "prediction-real" else "prediction-fake") ++
            "\">\n                    Prediction: <strong>" ++
            v ++
            "</strong>\n                </div>\n                <p style=\"margin-top: 8px; font-size: 0.9rem; color: #64748b;\">\n                    The model thinks this image is " ++
            (if v = "REAL" then "authentic" else "AI-generated or manipulated") ++
            ".\n                </p>\n            ") ++
          "\n                </div>\n            ")
        "Sorry, there was an error" = false ∧
      (analyzeImage ⟨[⟨0, "message bot-message", "hello"⟩], "", "", 1, [], [], []⟩
        ⟨"photo.png", "image/png", 2048⟩ (.rejected "Failed to fetch") (3 / 4)).timers
        = [] ++ [⟨100, .scroll⟩, ⟨2000, .resolve⟩, ⟨100, .scroll⟩] :=
  ⟨by decide, by decide,
    analyzeImage_connectivity_fallback
      ⟨[⟨0, "message bot-message", "hello"⟩], "", "", 1, [], [], []⟩
      ⟨"photo.png", "image/png", 2048⟩ "Failed to fetch" (3 / 4) (by decide)
      (Or.inl (by decide))⟩

end ChatUI

namespace ChatUI

/-! ### Claims on the conversation -/

/-- C5 (failing input): a disk image, whose media type `application/x-cd-image` has the
top-level type `application`, is not rejected by `handleFileUpload`: the pattern `image.*`
matches anywhere in the type, so the file gets a user preview and the "Analyzing" placeholder,
and `API.analyzeImage` is called for it. -/
theorem handleFileUpload_disk_image_analyzed :
    topLevelType "application/x-cd-image" = "application" ∧
    (handleFileUpload initial ⟨"disk.iso", "application/x-cd-image", 1048576⟩).chatMessages
      = [⟨0, "message user-message", ""⟩, ⟨1, "message bot-message", loadingHTML⟩] ∧
    (handleFileUpload initial ⟨"disk.iso", "application/x-cd-image", 1048576⟩).requests
      = [(⟨"disk.iso", "application/x-cd-image", 1048576⟩, 1)] := by
  decide

/-- C7: for every outcome of the network call, so for every way `API.analyzeImage` completes,
the analysis of an image appends the "Analyzing" placeholder, calls `API.analyzeImage` once,
and ends with the placeholder gone and exactly one bot message appended. On the success path
(the `try` block runs to its end: a result was returned and its prediction has a string
conversion) that message is the rich result showing the prediction. On the failure path (the
`catch` block runs: with the error `API.analyzeImage` threw, or with the `TypeError` of a
prediction that has no string conversion) it is the text message whose text is
"Sorry, there was an error analyzing the image: " followed by the error's message. The
continuation does the same in whatever state `mid` it runs. -/
theorem analyzeImage_terminal_state (ui : ChatUI) (file : File) (net : FetchOutcome)
    (random : ℚ) (hf : Fresh ui) :
    (analyzeImageBegin ui file).1.chatMessages
      = ui.chatMessages ++ [⟨ui.nextId, "message bot-message",
          "\n            <div class=\"message-content\">\n                <p>Analyzing image... <span class=\"loading\"></span></p>\n            </div>\n        "⟩] ∧
    (analyzeImageBegin ui file).2 = ui.nextId ∧
    (analyzeImageBegin ui file).1.requests = ui.requests ++ [(file, ui.nextId)] ∧
    (∀ e ∈ (analyzeImage ui file net random).chatMessages, e.id ≠ ui.nextId) ∧
    ∃ html,
      ((∃ s d p shown,
          (API.analyzeImage file net random).outcome = .returned (.object s d p) ∧
          (p = .string shown ∨ p = .other shown ∨ (p = .undefined ∧ shown = "undefined")) ∧
          html =
            "\n                <div class=\"message-content\">\n                    " ++
              ("\n                <p>Analysis complete!</p>\n                <div class=\"prediction-result " ++
                (if p = .string "REAL" then "prediction-real" else "prediction-fake") ++
                "\">\n                    Prediction: <strong>" ++
                shown ++
                "</strong>\n                </div>\n                <p style=\"margin-top: 8px; font-size: 0.9rem; color: #64748b;\">\n                    The model thinks this image is " ++
                (if p = .string "REAL" then "authentic" else "AI-generated or manipulated") ++
                ".\n                </p>\n            ") ++
              "\n                </div>\n            ") ∨
        (∃ message,
          ((∃ e, (API.analyzeImage file net random).outcome = .thrown e ∧
              message = e.message) ∨
            (∃ s d, (API.analyzeImage file net random).outcome
                = .returned (.object s d .unconvertible) ∧
              message = "Cannot convert object to primitive value")) ∧
          html =
            "\n                <div class=\"message-content\">\n                    <p>" ++
              escapeHtml ("Sorry, there was an error analyzing the image: " ++ message) ++
              "</p>\n                </div>\n            " ∧
          decodeEntities
              (escapeHtml ("Sorry, there was an error analyzing the image: " ++ message)).data
            = ("Sorry, there was an error analyzing the image: " ++ message).data)) ∧
      (analyzeImage ui file net random).chatMessages
        = ui.chatMessages ++ [⟨ui.nextId + 1, "message bot-message", html⟩] ∧
      ∀ mid : ChatUI,
        (analyzeImageResume mid ui.nextId (API.analyzeImage file net random).outcome).chatMessages
          = mid.chatMessages.filter (fun e => e.id ≠ ui.nextId)
              ++ [⟨mid.nextId, "message bot-message", html⟩] := by
  refine ⟨rfl, rfl, rfl, ?_, resolvedHTML (API.analyzeImage file net random).outcome, ?_,
    analyzeImage_chatMessages ui file net random hf,
    fun mid => analyzeImageResume_chatMessages mid _ _⟩
  · intro e he
    rw [analyzeImage_chatMessages ui file net random hf] at he
    simp only [List.mem_append, List.mem_singleton] at he
    rcases he with h | h
    · have := hf e h
      omega
    · subst h
      simp
  · rcases analyzeImage_outcome_cases file net random with ⟨s, d, p, h⟩ | ⟨e, h⟩
    · rw [h]
      cases p with
      | undefined =>
        left
        exact ⟨s, d, .undefined, "undefined", rfl, Or.inr (Or.inr ⟨rfl, rfl⟩), rfl⟩
      | string v =>
        left
        exact ⟨s, d, .string v, v, rfl, Or.inl rfl, rfl⟩
      | other shown =>
        left
        exact ⟨s, d, .other shown, shown, rfl, Or.inr (Or.inl rfl), rfl⟩
      | unconvertible =>
        right
        exact ⟨"Cannot convert object to primitive value", Or.inr ⟨s, d, rfl, rfl⟩, rfl,
          decodeEntities_escapeChars _⟩
    · rw [h]
      right
      exact ⟨e.message, Or.inl ⟨e, rfl, rfl⟩, rfl, decodeEntities_escapeChars _⟩

/-- Witness for `analyzeImage_terminal_state`: a conversation with one earlier message, and a
response with status 503. -/
theorem analyzeImage_terminal_state_witness :
    Fresh ⟨[⟨0, "message bot-message", "hello"⟩], "", "", 1, [], [], []⟩ ∧
    ∀ e ∈ (analyzeImage ⟨[⟨0, "message bot-message", "hello"⟩], "", "", 1, [], [], []⟩
        ⟨"photo.png", "image/png", 2048⟩ (.response 503 (.syntaxError "Unexpected token"))
        (1 / 4)).chatMessages, e.id ≠ 1 :=
  ⟨by decide,
    (analyzeImage_terminal_state ⟨[⟨0, "message bot-message", "hello"⟩], "", "", 1, [], [], []⟩
      ⟨"photo.png", "image/png", 2048⟩ (.response 503 (.syntaxError "Unexpected token"))
      (1 / 4) (by decide)).2.2.2.1⟩

/-- C9: `handleSendMessage` changes nothing when the typed text is empty after trimming.
Otherwise it appends exactly one user message, whose markup holds the escaped trimmed text
inside its paragraph, empties the input and schedules, besides the scroll, exactly one timer
of 1000 ms whose callback appends the canned bot message. The trimmed text is the input
without its leading and trailing white space, and it is the text the markup reads back as. -/
theorem handleSendMessage_behaviour (ui : ChatUI) :
    (jsTrim ui.chatInput = "" → handleSendMessage ui = ui) ∧
    (jsTrim ui.chatInput ≠ "" →
      handleSendMessage ui =
        { ui with
          chatMessages := ui.chatMessages ++
            [⟨ui.nextId, "message user-message",
              "\n            <div class=\"message-content\">\n                <p>" ++
              escapeHtml (jsTrim ui.chatInput) ++
              "</p>\n            </div>\n        "⟩]
          chatInput := ""
          nextId := ui.nextId + 1
          timers := ui.timers ++ [⟨100, .scroll⟩,
            ⟨1000, .reply
              "I'm primarily designed to analyze images. Try uploading an image using the + button!"⟩] } ∧
      (fire (handleSendMessage ui)
          (.reply
            "I'm primarily designed to analyze images. Try uploading an image using the + button!")).chatMessages
        = (handleSendMessage ui).chatMessages ++
            [⟨ui.nextId + 1, "message bot-message",
              "\n                <div class=\"message-content\">\n                    <p>" ++
              "I'm primarily designed to analyze images. Try uploading an image using the + button!" ++
              "</p>\n                </div>\n            "⟩]) ∧
    decodeEntities (escapeHtml (jsTrim ui.chatInput)).data = (jsTrim ui.chatInput).data ∧
    (∃ before after_, ui.chatInput.data = before ++ (jsTrim ui.chatInput).data ++ after_ ∧
      (∀ c ∈ before, isJsWhiteSpace c = true) ∧ (∀ c ∈ after_, isJsWhiteSpace c = true) ∧
      (∀ c, (jsTrim ui.chatInput).data.head? = some c → isJsWhiteSpace c = false) ∧
      (∀ c, (jsTrim ui.chatInput).data.getLast? = some c → isJsWhiteSpace c = false)) := by
  refine ⟨?_, ?_, decodeEntities_escapeChars _, jsTrim_decompose _⟩
  · intro h
    simp [handleSendMessage, h]
  · intro h
    have e : handleSendMessage ui =
        { ui with
          chatMessages := ui.chatMessages ++
            [⟨ui.nextId, "message user-message", userMessageHTML (jsTrim ui.chatInput)⟩]
          chatInput := ""
          nextId := ui.nextId + 1
          timers := ui.timers ++ [⟨100, .scroll⟩, ⟨1000, .reply cannedReply⟩] } := by
      simp [handleSendMessage, h, addUserMessage, scrollToBottom, appendNew]
    refine ⟨e, ?_⟩
    rw [e]
    have hc : botMessageHTML cannedReply false
        = "\n                <div class=\"message-content\">\n                    <p>" ++
          "I'm primarily designed to analyze images. Try uploading an image using the + button!" ++
          "</p>\n                </div>\n            " := by
      set_option maxRecDepth 20000 in decide
    show (fire _ (.reply cannedReply)).chatMessages = _
    rw [← hc]
    simp [fire, addBotMessage, scrollToBottom, appendNew]

/-- Witness for `handleSendMessage_behaviour`: the input "  hello " is sent as "hello", an
input of two blanks is not sent. -/
theorem handleSendMessage_behaviour_witness :
    (jsTrim "  " = "" ∧
      handleSendMessage ⟨[], "  ", "", 0, [], [], []⟩ = ⟨[], "  ", "", 0, [], [], []⟩) ∧
    (jsTrim "  hello " ≠ "" ∧
      handleSendMessage ⟨[], "  hello ", "", 0, [], [], []⟩ =
        ⟨[⟨0, "message user-message",
            "\n            <div class=\"message-content\">\n                <p>hello</p>\n            </div>\n        "⟩],
          "", "", 1,
          [⟨100, .scroll⟩,
            ⟨1000, .reply
              "I'm primarily designed to analyze images. Try uploading an image using the + button!"⟩],
          [], []⟩) :=
  ⟨⟨by decide, (handleSendMessage_behaviour ⟨[], "  ", "", 0, [], [], []⟩).1 (by decide)⟩,
    ⟨by decide,
      ((handleSendMessage_behaviour ⟨[], "  hello ", "", 0, [], [], []⟩).2.1 (by decide)).1⟩⟩

/-- C10: for every response whose HTTP status is not a success status, `API.analyzeImage`
fails at once with the error "HTTP error! status: <status>", whatever the body and the random
source; the flow then appends exactly one bot text message, whose markup contains that error
text. -/
theorem analyzeImage_http_error (ui : ChatUI) (file : File) (status : Nat) (json : JsonOutcome)
    (random : ℚ) (hf : Fresh ui) (h : responseOk status = false) :
    API.analyzeImage file (.response status json) random
      = ⟨0, .thrown ⟨"HTTP error! status: " ++ toString status⟩⟩ ∧
    (analyzeImage ui file (.response status json) random).chatMessages
      = ui.chatMessages ++ [⟨ui.nextId + 1, "message bot-message",
          botMessageHTML (errorText ⟨"HTTP error! status: " ++ toString status⟩) false⟩] ∧
    includes (botMessageHTML (errorText ⟨"HTTP error! status: " ++ toString status⟩) false)
      ("HTTP error! status: " ++ toString status) = true := by
  have hapi : API.analyzeImage file (.response status json) random
      = ⟨0, .thrown ⟨"HTTP error! status: " ++ toString status⟩⟩ := by
    obtain ⟨h1, h2⟩ := httpErrorMessage_not_connectivity status
    simp [API.analyzeImage, API.analyzeImageTry, h, h1, h2]
  refine ⟨hapi, ?_, ?_⟩
  · rw [analyzeImage_chatMessages ui file _ random hf, hapi]
    rfl
  · have hesc : escapeHtml ("HTTP error! status: " ++ toString status)
        = "HTTP error! status: " ++ toString status :=
      escapeHtml_of_not_special _ (fun c hc => (httpErrorMessage_chars status c hc).1)
    have hshape : botMessageHTML (errorText ⟨"HTTP error! status: " ++ toString status⟩) false
        = ("\n                <div class=\"message-content\">\n                    <p>" ++
            escapeHtml "Sorry, there was an error analyzing the image: ") ++
          ("HTTP error! status: " ++ toString status) ++
          "</p>\n                </div>\n            " := by
      simp only [botMessageHTML, errorText, escapeHtml_append, hesc, Bool.false_eq_true,
        if_false, String.append_assoc]
    rw [hshape]
    exact includes_infix _ _ _

/-- Witness for `analyzeImage_http_error`: status 404 in a conversation with one earlier
message. -/
theorem analyzeImage_http_error_witness :
    Fresh ⟨[⟨0, "message bot-message", "hello"⟩], "", "", 1, [], [], []⟩ ∧
    responseOk 404 = false ∧
    API.analyzeImage ⟨"photo.png", "image/png", 2048⟩
        (.response 404 (.value .null)) (1 / 4)
      = ⟨0, .thrown ⟨"HTTP error! status: " ++ toString 404⟩⟩ :=
  ⟨by decide, by decide,
    (analyzeImage_http_error ⟨[⟨0, "message bot-message", "hello"⟩], "", "", 1, [], [], []⟩
      ⟨"photo.png", "image/png", 2048⟩ 404 (.value .null) (1 / 4) (by decide) (by decide)).1⟩

end ChatUI

namespace ChatUI

/-! ### Escaped text opens no element -/

theorem countStartTags_append_closed (xs ys : List Char) (h : xs.getLast? ≠ some '<') :
    countStartTags (xs ++ ys) = countStartTags xs + countStartTags ys := by
  induction xs with
  | nil => simp [countStartTags]
  | cons x xs ih =>
    cases xs with
    | nil =>
      have hx : x ≠ '<' := by
        intro e; apply h; simp [e]
      simp [countStartTags, hx]
    | cons z zs =>
      have h2 : (z :: zs).getLast? ≠ some '<' := by
        simpa [List.getLast?_cons_cons] using h
      have e := ih h2
      show (if (x = '<' && startsWithLetter ((z :: zs) ++ ys)) then 1 else 0)
          + countStartTags ((z :: zs) ++ ys)
        = ((if (x = '<' && startsWithLetter (z :: zs)) then 1 else 0)
          + countStartTags (z :: zs)) + countStartTags ys
      rw [e]
      have hs : startsWithLetter ((z :: zs) ++ ys) = startsWithLetter (z :: zs) := rfl
      rw [hs]
      omega

theorem escapeChars_no_lt (cs : List Char) : ∀ c ∈ escapeChars cs, c ≠ '<' :=
  fun c hc => (escapeChars_no_angle cs c hc).1

theorem ne_lt_of_not_special (c : Char) (h : isSpecial c = false) : c ≠ '<' := by
  intro e
  subst e
  revert h
  decide

theorem toString_not_special (n : Nat) : ∀ c ∈ (toString n).data, isSpecial c = false := by
  rw [toString_data]
  exact toDigits_all (fun c => isSpecial c = false)
    (by intro m hm; interval_cases m <;> decide) n

theorem shownValue_not_special (n : Nat) : ∀ c ∈ (shownValue n).data, isSpecial c = false := by
  intro c hc
  unfold shownValue at hc
  split at hc
  · exact toString_not_special _ c hc
  · split at hc
    · simp only [String.data_append, List.mem_append] at hc
      rcases hc with (h | h) | h
      · exact toString_not_special _ c h
      · revert c; decide
      · exact toString_not_special _ c h
    · simp only [String.data_append, List.mem_append, twoDigits] at hc
      rcases hc with (h | h) | h
      · exact toString_not_special _ c h
      · revert c; decide
      · split at h
        · simp only [String.data_append, List.mem_append] at h
          rcases h with h | h
          · revert c; decide
          · exact toString_not_special _ c h
        · exact toString_not_special _ c h

theorem sizesAt_not_special (i : Nat) : ∀ c ∈ (sizesAt i).data, isSpecial c = false := by
  match i with
  | 0 => decide
  | 1 => decide
  | 2 => decide
  | 3 => decide
  | n + 4 =>
    have e : sizesAt (n + 4) = "undefined" := rfl
    rw [e]
    decide

/-- A size string holds no character that escaping would rewrite. -/
theorem formatFileSize_not_special (bytes : Nat) :
    ∀ c ∈ (formatFileSize bytes).data, isSpecial c = false := by
  intro c hc
  unfold formatFileSize at hc
  split at hc
  · revert c; decide
  · simp only [parseFloat_toFixed2, numberToString_hundredths, String.data_append,
      List.mem_append] at hc
    rcases hc with (h | h) | h
    · exact shownValue_not_special _ c h
    · revert c; decide
    · exact sizesAt_not_special _ c h

set_option maxRecDepth 20000 in
/-- The text messages open two elements whatever the text, the video preview seven whatever
the file. -/
theorem countStartTags_messages (text : String) (file : File) :
    countStartTags (userMessageHTML text).data = 2 ∧
    countStartTags (botMessageHTML text false).data = 2 ∧
    countStartTags (videoMessageHTML file).data = 7 := by
  refine ⟨?_, ?_, ?_⟩
  · simp only [userMessageHTML, escapeHtml, String.data_append, List.append_assoc]
    rw [countStartTags_append_closed _ _ (by decide),
      countStartTags_of_no_lt _ _ (escapeChars_no_lt _)]
    decide
  · simp only [botMessageHTML, escapeHtml, String.data_append, List.append_assoc,
      Bool.false_eq_true, if_false]
    rw [countStartTags_append_closed _ _ (by decide),
      countStartTags_of_no_lt _ _ (escapeChars_no_lt _)]
    decide
  · simp only [videoMessageHTML, escapeHtml, String.data_append, List.append_assoc]
    rw [countStartTags_append_closed _ _ (by decide),
      countStartTags_of_no_lt _ _ (escapeChars_no_lt _),
      countStartTags_append_closed _ _ (by decide),
      countStartTags_of_no_lt _ _
        (fun c hc => ne_lt_of_not_special c (formatFileSize_not_special _ c hc))]
    decide

set_option maxRecDepth 20000 in
/-- A script element as text: escaped it is plain text, inserted as markup it opens one more
element. -/
theorem script_text_example :
    escapeHtml "<script>alert(1)</script>" = "&lt;script&gt;alert(1)&lt;/script&gt;" ∧
    countStartTags (botMessageHTML "<script>alert(1)</script>" true).data
      = countStartTags (botMessageHTML "" true).data + 1 := by
  decide

/-- C8: the text given to `addUserMessage`, to `addBotMessage` with `isHTML` false, or used as
the file name of a video preview is inserted HTML-escaped. The escaped text holds no `<` and no
`>`, reads back as the text itself, and opens no element: those messages have the same start
tags for every text. The size string next to the file name is its own escaped form. Only
`addBotMessage` with `isHTML` true inserts its message as it is. -/
theorem text_is_inserted_escaped (ui : ChatUI) (text : String) (file : File) :
    (addUserMessage ui text).chatMessages
      = ui.chatMessages ++ [⟨ui.nextId, "message user-message",
          "\n            <div class=\"message-content\">\n                <p>" ++
          escapeHtml text ++ "</p>\n            </div>\n        "⟩] ∧
    (addBotMessage ui text false).chatMessages
      = ui.chatMessages ++ [⟨ui.nextId, "message bot-message",
          "\n                <div class=\"message-content\">\n                    <p>" ++
          escapeHtml text ++ "</p>\n                </div>\n            "⟩] ∧
    (∃ before between after_, videoMessageHTML file
      = before ++ escapeHtml file.name ++ between ++ formatFileSize file.size ++ after_) ∧
    escapeHtml (formatFileSize file.size) = formatFileSize file.size ∧
    (∀ c ∈ (escapeHtml text).data, c ≠ '<' ∧ c ≠ '>') ∧
    decodeEntities (escapeHtml text).data = text.data ∧
    escapeHtml "<script>alert(1)</script>" = "&lt;script&gt;alert(1)&lt;/script&gt;" ∧
    countStartTags (userMessageHTML text).data = 2 ∧
    countStartTags (botMessageHTML text false).data = 2 ∧
    countStartTags (videoMessageHTML file).data = 7 ∧
    (addBotMessage ui text true).chatMessages
      = ui.chatMessages ++ [⟨ui.nextId, "message bot-message",
          "\n                <div class=\"message-content\">\n                    " ++
          text ++ "\n                </div>\n            "⟩] ∧
    countStartTags (botMessageHTML "<script>alert(1)</script>" true).data
      = countStartTags (botMessageHTML "" true).data + 1 := by
  obtain ⟨h1, h2, h3⟩ := countStartTags_messages text file
  exact ⟨rfl, rfl, ⟨_, _, _, rfl⟩,
    escapeHtml_of_not_special _ (formatFileSize_not_special _), escapeChars_no_angle _, decodeEntities_escapeChars _,
    script_text_example.1, h1, h2, h3, rfl, script_text_example.2⟩

end ChatUI
